import Mathlib

/-!
Shallow embedding of `src/generator.py`, a command-line QR-code generator
with two flows (website / contact).  Python strings are embedded as Lean
`String`, Python `None`-able string arguments as `Option String`, and the
side effects of the program (calls to `print` and the image file written by
the external `qrcode` collaborator) as an explicit trace of events.  The
external encoder is a parameter `enc : String → Option Img`: `some img` is a
successful encoding, `none` a `DataOverflowError`-style failure that the
script propagates.  The current wall-clock timestamp string produced by
`datetime.now().strftime("%Y%m%d_%H%M%S")` is passed in as a parameter
`now`.  A result of `none` for an entry point models an uncaught exception.
-/

/-- Python truthiness of an optional string: `None` and `""` are falsy,
every other string is truthy.  Models `if x:` on a `str`-or-`None` value. -/
def truthy : Option String → Bool
  | none => false
  | some s => s != ""

/-- Embedding of `generate_contact_vcard` (src/generator.py lines 7-35):
builds the vCard text by string concatenation, appending a `URL:` line only
when `url` is truthy, exactly as the Python f-string template does. -/
def generate_contact_vcard (name phone email : String) (url : Option String) : String :=
  let vcard := "BEGIN:VCARD\nVERSION:3.0\nFN:" ++ name ++ "\nTEL:" ++ phone ++ "\nEMAIL:" ++ email
  let vcard := if truthy url then vcard ++ ("\nURL:" ++ url.getD "") else vcard
  vcard ++ "\nEND:VCARD"

/-- An observable side effect of the script: a `print` to stdout, or the
raster image the external encoder produced being saved at a path. -/
inductive Event (Img : Type) where
  | printed (msg : String)
  | savedFile (path : String) (img : Img)
  deriving DecidableEq, Repr

/-- Embedding of `generate_qr_code` (src/generator.py lines 38-61): when
`output_path` is `None` the function itself resolves the timestamp-based
default `qrcode_<now>.png`; it then hands `data` to the external encoder,
saves the resulting image at the resolved path and prints a confirmation.
An encoder failure propagates as an uncaught exception (`none`). -/
def generate_qr_code {Img : Type} (enc : String → Option Img) (now : String)
    (data : String) (output_path : Option String) : Option (List (Event Img)) :=
  let path :=
    match output_path with
    | none => "qrcode_" ++ now ++ ".png"
    | some p => p
  match enc data with
  | none => none
  | some img => some [Event.savedFile path img, Event.printed ("QR code saved to " ++ path)]

/-- Embedding of Python `str.strip()`: drop whitespace from both ends. -/
def pyStrip (s : String) : String :=
  ⟨((s.data.dropWhile fun c => c.isWhitespace).reverse.dropWhile fun c => c.isWhitespace).reverse⟩

/-- The dictionary returned by `get_user_input_interactive`: a `"type"` key
plus the flow-specific keys; `none` models both an absent key and a `None`
value (the two are never distinguished by the script, which only uses
`d["k"]` on keys it just stored and `d.get("k", default)`). -/
structure UserDict where
  type : String
  url : Option String := none
  name : Option String := none
  phone : Option String := none
  email : Option String := none
  output : Option String := none
  deriving DecidableEq, Repr

/-- How a call of `get_user_input_interactive` ends: with a returned
dictionary, with `exit(0)` (menu choice 3), or with an `EOFError` because
the input stream ran out at a prompt. -/
inductive InterResult where
  | returned (d : UserDict)
  | exited
  | eof
  deriving DecidableEq, Repr

/-- The five menu `print`s plus the prompt of the `input` call in
`get_user_input_interactive`. -/
def menuPrints : List String :=
  ["\n=== QR Code Generator ===", "Choose an option:", "1. Generate Website QR Code",
   "2. Generate Contact QR Code", "3. Exit", "\nEnter your choice (1-3): "]

/-- Embedding of `get_user_input_interactive` (src/generator.py lines
64-104) over a finite stream of answers: returns the texts printed (menu,
prompts, notices) and how the call ended.  An invalid menu choice prints a
notice and recurses on the remaining stream. -/
def get_user_input_interactive : List String → List String × InterResult
  | [] => (menuPrints, InterResult.eof)
  | choice :: rest =>
    let c := pyStrip choice
    if c = "1" then
      match rest with
      | [] => (menuPrints ++ ["Enter website URL: "], InterResult.eof)
      | url :: _ =>
        (menuPrints ++ ["Enter website URL: "],
         InterResult.returned { type := "website", url := some (pyStrip url) })
    else if c = "2" then
      match rest with
      | [] =>
        (menuPrints ++ ["\n--- Enter Your Contact Information ---", "Full Name: "],
         InterResult.eof)
      | nm :: rest1 =>
        match rest1 with
        | [] =>
          (menuPrints ++ ["\n--- Enter Your Contact Information ---", "Full Name: ",
            "Phone Number: "], InterResult.eof)
        | ph :: rest2 =>
          match rest2 with
          | [] =>
            (menuPrints ++ ["\n--- Enter Your Contact Information ---", "Full Name: ",
              "Phone Number: ", "Email Address: "], InterResult.eof)
          | em :: rest3 =>
            match rest3 with
            | [] =>
              (menuPrints ++ ["\n--- Enter Your Contact Information ---", "Full Name: ",
                "Phone Number: ", "Email Address: ",
                "Website URL (optional, press Enter to skip): "], InterResult.eof)
            | u :: _ =>
              (menuPrints ++ ["\n--- Enter Your Contact Information ---", "Full Name: ",
                "Phone Number: ", "Email Address: ",
                "Website URL (optional, press Enter to skip): "],
               InterResult.returned
                 { type := "contact", name := some (pyStrip nm), phone := some (pyStrip ph),
                   email := some (pyStrip em),
                   url := if pyStrip u = "" then none else some (pyStrip u) })
    else if c = "3" then
      (menuPrints ++ ["Exiting..."], InterResult.exited)
    else
      let r := get_user_input_interactive rest
      (menuPrints ++ ["Invalid choice. Please try again."] ++ r.1, r.2)

/-- The parsed command-line arguments of `main`; every flag is optional
(argparse default `None`), and argparse guarantees `type`, when present, is
`"website"` or `"contact"`. -/
structure Args where
  type : Option String := none
  url : Option String := none
  name : Option String := none
  phone : Option String := none
  email : Option String := none
  website : Option String := none
  output : Option String := none
  deriving DecidableEq, Repr

/-- Embedding of Python `main` (renamed: `main` is reserved here) (src/generator.py lines 107-180): dispatches on
`--type`; the command-line branches validate required fields and print an
error without encoding when they are missing; the interactive branch feeds
the collected dictionary straight to the emitters with no validation. -/
def py_main {Img : Type} (enc : String → Option Img) (now : String)
    (args : Args) (stdin : List String) : Option (List (Event Img)) :=
  if truthy args.type then
    if args.type = some "website" then
      if !truthy args.url then
        some [Event.printed "Error: --url is required for website QR codes"]
      else
        generate_qr_code enc now (args.url.getD "") args.output
    else if args.type = some "contact" then
      if !(truthy args.name && truthy args.phone && truthy args.email) then
        some [Event.printed "Error: --name, --phone, and --email are required for contact QR codes"]
      else
        let contact_vcard := generate_contact_vcard (args.name.getD "") (args.phone.getD "")
          (args.email.getD "") args.website
        let output_path := if truthy args.output then args.output.getD "" else "contact_qrcode.png"
        generate_qr_code enc now contact_vcard (some output_path)
    else
      some []
  else
    let r := get_user_input_interactive stdin
    match r.2 with
    | InterResult.eof => none
    | InterResult.exited => some (r.1.map Event.printed)
    | InterResult.returned d =>
      let pre : List (Event Img) := r.1.map Event.printed
      if d.type = "website" then
        (generate_qr_code enc now (d.url.getD "") d.output).map fun evs => pre ++ evs
      else if d.type = "contact" then
        let contact_vcard := generate_contact_vcard (d.name.getD "") (d.phone.getD "")
          (d.email.getD "") d.url
        (generate_qr_code enc now contact_vcard (some (d.output.getD "contact_qrcode.png"))).map
          fun evs => pre ++ evs
      else
        some pre

/-- The path a save event wrote to, if it is one. -/
def evPath {Img : Type} : Event Img → Option String
  | Event.printed _ => none
  | Event.savedFile p _ => some p

/-- The list of paths written by a run (empty for an uncaught exception). -/
def savedPaths {Img : Type} : Option (List (Event Img)) → List String
  | none => []
  | some evs => evs.filterMap evPath

/-- Whether a run wrote at least one file. -/
def writesFile {Img : Type} (r : Option (List (Event Img))) : Bool :=
  !(savedPaths r).isEmpty

/-- Split a character list at every newline; a text with `k` newlines yields
`k+1` lines (the analogue of splitting the final string on `"\n"`). -/
def splitLines : List Char → List (List Char)
  | [] => [[]]
  | c :: cs =>
    match splitLines cs with
    | [] => [[]]
    | l :: ls => if c = '\n' then [] :: l :: ls else (c :: l) :: ls

/-- The lines of a string, as strings. -/
def lines (s : String) : List String :=
  (splitLines s.data).map fun l => ⟨l⟩

/-- Boolean test that `p` is a prefix of the character list `l`. -/
def isPrefixChars : List Char → List Char → Bool
  | [], _ => true
  | _ :: _, [] => false
  | a :: as, b :: bs => a == b && isPrefixChars as bs

/-- Some line of `s` starts with the text `p`. -/
def HasLineStarting (p s : String) : Prop :=
  ∃ l ∈ splitLines s.data, isPrefixChars p.data l = true

theorem splitLines_ne_nil (cs : List Char) : splitLines cs ≠ [] := by
  cases cs with
  | nil => simp [splitLines]
  | cons c cs =>
    simp only [splitLines]
    cases splitLines cs with
    | nil => simp
    | cons l ls =>
      by_cases h : c = '\n' <;> simp [h]

theorem splitLines_append (a r : List Char) :
    splitLines (a ++ '\n' :: r) = splitLines a ++ splitLines r := by
  induction a with
  | nil =>
    simp only [List.nil_append, splitLines]
    cases hr : splitLines r with
    | nil => exact absurd hr (splitLines_ne_nil r)
    | cons l ls => simp
  | cons c a ih =>
    have h1 := splitLines_ne_nil a
    cases hs : splitLines a with
    | nil => exact absurd hs h1
    | cons l ls =>
      show splitLines (c :: (a ++ '\n' :: r)) = splitLines (c :: a) ++ splitLines r
      simp only [splitLines, ih, hs]
      by_cases h : c = '\n' <;> simp [h]

theorem splitLines_no_newline (cs : List Char) (h : ('\n') ∉ cs) :
    splitLines cs = [cs] := by
  induction cs with
  | nil => rfl
  | cons c cs ih =>
    simp only [List.mem_cons, not_or] at h
    simp only [splitLines, ih h.2]
    rw [if_neg (Ne.symm h.1)]

theorem data_append_eq (s t : String) : (s ++ t).data = s.data ++ t.data := rfl

/-- The character-level decomposition of the formatted vCard: the fixed
labels with the field texts spliced in verbatim between them. -/
theorem vcard_data (n p e : String) (u : Option String) :
    (generate_contact_vcard n p e u).data =
      ("BEGIN:VCARD" : String).data ++ '\n' :: ("VERSION:3.0" : String).data ++
      '\n' :: ("FN:" : String).data ++ n.data ++
      '\n' :: ("TEL:" : String).data ++ p.data ++
      '\n' :: ("EMAIL:" : String).data ++ e.data ++
      (if truthy u then '\n' :: ("URL:" : String).data ++ (u.getD "").data else []) ++
      '\n' :: ("END:VCARD" : String).data := by
  have h1 : ("BEGIN:VCARD\nVERSION:3.0\nFN:" : String).data =
      ("BEGIN:VCARD" : String).data ++
        '\n' :: (("VERSION:3.0" : String).data ++ '\n' :: ("FN:" : String).data) := by decide
  have h2 : ("\nTEL:" : String).data = '\n' :: ("TEL:" : String).data := rfl
  have h3 : ("\nEMAIL:" : String).data = '\n' :: ("EMAIL:" : String).data := rfl
  have h4 : ("\nURL:" : String).data = '\n' :: ("URL:" : String).data := rfl
  have h5 : ("\nEND:VCARD" : String).data = '\n' :: ("END:VCARD" : String).data := rfl
  simp only [generate_contact_vcard]
  cases hu : truthy u <;>
    simp [hu, data_append_eq, h1, h2, h3, h4, h5, List.append_assoc]

/-- Join lines with newline separators (right inverse of `splitLines`). -/
def joinNL : List (List Char) → List Char
  | [] => []
  | [l] => l
  | l :: ls => l ++ '\n' :: joinNL ls

theorem splitLines_joinNL (ls : List (List Char)) (h0 : ls ≠ [])
    (h : ∀ l ∈ ls, ('\n') ∉ l) : splitLines (joinNL ls) = ls := by
  induction ls with
  | nil => cases h0 rfl
  | cons l ls ih =>
    cases ls with
    | nil => exact splitLines_no_newline l (h l (by simp))
    | cons m ms =>
      have hj : joinNL (l :: m :: ms) = l ++ '\n' :: joinNL (m :: ms) := rfl
      rw [hj, splitLines_append, splitLines_no_newline l (h l (by simp))]
      rw [ih (by simp) fun x hx => h x (List.mem_cons_of_mem l hx)]
      rfl

theorem splitLines_head_line (a r : List Char) (h : ('\n') ∉ a) :
    (splitLines (a ++ '\n' :: r)).head? = some a := by
  rw [splitLines_append, splitLines_no_newline a h]
  rfl

theorem splitLines_last_line (a r : List Char) (h : ('\n') ∉ r) :
    (splitLines (a ++ '\n' :: r)).getLast? = some r := by
  rw [splitLines_append, splitLines_no_newline r h, List.getLast?_concat]

/-- The vCard text, decomposed at its first newline. -/
theorem vcard_decomp_head (n p e : String) (u : Option String) :
    (generate_contact_vcard n p e u).data =
      ("BEGIN:VCARD" : String).data ++ '\n' ::
        (("VERSION:3.0" : String).data ++ '\n' :: ("FN:" : String).data ++ n.data ++
         '\n' :: ("TEL:" : String).data ++ p.data ++ '\n' :: ("EMAIL:" : String).data ++ e.data ++
         (if truthy u then '\n' :: ("URL:" : String).data ++ (u.getD "").data else []) ++
         '\n' :: ("END:VCARD" : String).data) := by
  rw [vcard_data]
  simp [List.append_assoc]

/-- The vCard text, decomposed at its last newline. -/
theorem vcard_decomp_last (n p e : String) (u : Option String) :
    ∃ a, (generate_contact_vcard n p e u).data = a ++ '\n' :: ("END:VCARD" : String).data := by
  rw [vcard_data]
  cases htu : truthy u
  · refine ⟨("BEGIN:VCARD" : String).data ++ '\n' :: ("VERSION:3.0" : String).data ++
      '\n' :: ("FN:" : String).data ++ n.data ++ '\n' :: ("TEL:" : String).data ++ p.data ++
      '\n' :: ("EMAIL:" : String).data ++ e.data, ?_⟩
    simp [List.append_assoc]
  · refine ⟨("BEGIN:VCARD" : String).data ++ '\n' :: ("VERSION:3.0" : String).data ++
      '\n' :: ("FN:" : String).data ++ n.data ++ '\n' :: ("TEL:" : String).data ++ p.data ++
      '\n' :: ("EMAIL:" : String).data ++ e.data ++
      '\n' :: ("URL:" : String).data ++ (u.getD "").data, ?_⟩
    simp [List.append_assoc]

/-- With newline-free fields, the vCard splits into exactly the schema
lines. -/
theorem vcard_splitLines (n p e : String) (u : Option String)
    (hn : ('\n') ∉ n.data) (hp : ('\n') ∉ p.data) (he : ('\n') ∉ e.data)
    (hu : ('\n') ∉ (u.getD "").data) :
    splitLines (generate_contact_vcard n p e u).data =
      [("BEGIN:VCARD" : String).data, ("VERSION:3.0" : String).data,
       ("FN:" : String).data ++ n.data, ("TEL:" : String).data ++ p.data,
       ("EMAIL:" : String).data ++ e.data] ++
      (if truthy u then [("URL:" : String).data ++ (u.getD "").data] else []) ++
      [("END:VCARD" : String).data] := by
  have hjoin : (generate_contact_vcard n p e u).data =
      joinNL ([("BEGIN:VCARD" : String).data, ("VERSION:3.0" : String).data,
        ("FN:" : String).data ++ n.data, ("TEL:" : String).data ++ p.data,
        ("EMAIL:" : String).data ++ e.data] ++
       (if truthy u then [("URL:" : String).data ++ (u.getD "").data] else []) ++
       [("END:VCARD" : String).data]) := by
    rw [vcard_data]
    cases htu : truthy u <;> simp [joinNL, List.append_assoc]
  rw [hjoin]
  apply splitLines_joinNL
  · cases truthy u <;> simp
  · intro l hl
    cases htu : truthy u <;> simp [htu] at hl
    · rcases hl with rfl | rfl | rfl | rfl | rfl | rfl
      · decide
      · decide
      · simp [hn]
      · simp [hp]
      · simp [he]
      · decide
    · rcases hl with rfl | rfl | rfl | rfl | rfl | rfl | rfl
      · decide
      · decide
      · simp [hn]
      · simp [hp]
      · simp [he]
      · simp [hu]
      · decide

/-- C1: for every name, phone, email and optional url,
`generate_contact_vcard` returns the fixed-schema multi-line record: the
first line is exactly `BEGIN:VCARD` and the last exactly `END:VCARD`
(unconditionally), and — whenever the fields carry no embedded newline, so
that field lines are well defined — the lines are exactly `BEGIN:VCARD`,
`VERSION:3.0`, `FN:<name>`, `TEL:<phone>`, `EMAIL:<email>`, `URL:<url>`
(only when a truthy url was supplied), `END:VCARD`. -/
theorem vcard_fixed_schema (n p e : String) (u : Option String) :
    (lines (generate_contact_vcard n p e u)).head? = some "BEGIN:VCARD" ∧
    (lines (generate_contact_vcard n p e u)).getLast? = some "END:VCARD" ∧
    (('\n') ∉ n.data → ('\n') ∉ p.data → ('\n') ∉ e.data → ('\n') ∉ (u.getD "").data →
      lines (generate_contact_vcard n p e u) =
        ["BEGIN:VCARD", "VERSION:3.0", "FN:" ++ n, "TEL:" ++ p, "EMAIL:" ++ e] ++
        (if truthy u then ["URL:" ++ u.getD ""] else []) ++ ["END:VCARD"]) := by
  refine ⟨?_, ?_, ?_⟩
  · rw [lines, List.head?_map, vcard_decomp_head,
      splitLines_head_line _ _ (by decide)]
    rfl
  · obtain ⟨a, ha⟩ := vcard_decomp_last n p e u
    rw [lines, List.getLast?_map, ha, splitLines_last_line _ _ (by decide)]
    rfl
  · intro hn hp he hu
    rw [lines, vcard_splitLines n p e u hn hp he hu]
    cases htu : truthy u <;> simp
    · exact ⟨rfl, rfl, rfl⟩
    · exact ⟨rfl, rfl, rfl, rfl⟩

/-- Witness for C1 at the sample contact from the repository's tests. -/
theorem vcard_fixed_schema_witness :
    (lines (generate_contact_vcard "Nathan Minarik" "703.868.7182"
      "nathanminarik@gmail.com" (some "https://www.nathanminarik.com"))).head? =
        some "BEGIN:VCARD" ∧
    (lines (generate_contact_vcard "Nathan Minarik" "703.868.7182"
      "nathanminarik@gmail.com" (some "https://www.nathanminarik.com"))).getLast? =
        some "END:VCARD" ∧
    lines (generate_contact_vcard "Nathan Minarik" "703.868.7182"
      "nathanminarik@gmail.com" (some "https://www.nathanminarik.com")) =
      ["BEGIN:VCARD", "VERSION:3.0", "FN:" ++ "Nathan Minarik", "TEL:" ++ "703.868.7182",
       "EMAIL:" ++ "nathanminarik@gmail.com"] ++
      (if truthy (some "https://www.nathanminarik.com") then
        ["URL:" ++ (some "https://www.nathanminarik.com").getD ""] else []) ++
      ["END:VCARD"] :=
  ⟨(vcard_fixed_schema "Nathan Minarik" "703.868.7182" "nathanminarik@gmail.com"
      (some "https://www.nathanminarik.com")).1,
   (vcard_fixed_schema "Nathan Minarik" "703.868.7182" "nathanminarik@gmail.com"
      (some "https://www.nathanminarik.com")).2.1,
   (vcard_fixed_schema "Nathan Minarik" "703.868.7182" "nathanminarik@gmail.com"
      (some "https://www.nathanminarik.com")).2.2 (by decide) (by decide) (by decide) (by decide)⟩

/-- C5: the `FN:`, `TEL:` and `EMAIL:` lines carry the inputs verbatim: the
exact text `FN:<name>\nTEL:<phone>\nEMAIL:<email>` — the three fields
inserted character for character between the fixed labels, with no escaping,
normalization or line-folding of any character — occurs contiguously in the
output, for every input, including inputs containing colons or newlines. -/
theorem vcard_verbatim_fields (n p e : String) (u : Option String) :
    ∃ a b, (generate_contact_vcard n p e u).data =
      a ++ (("FN:" ++ n ++ "\nTEL:" ++ p ++ "\nEMAIL:" ++ e) : String).data ++ b := by
  have hA : ("BEGIN:VCARD\nVERSION:3.0\n" : String).data =
      ("BEGIN:VCARD" : String).data ++ '\n' :: (("VERSION:3.0" : String).data ++ ['\n']) := by
    decide
  have h2 : ("\nTEL:" : String).data = '\n' :: ("TEL:" : String).data := rfl
  have h3 : ("\nEMAIL:" : String).data = '\n' :: ("EMAIL:" : String).data := rfl
  refine ⟨("BEGIN:VCARD\nVERSION:3.0\n" : String).data,
    (if truthy u then '\n' :: ("URL:" : String).data ++ (u.getD "").data else []) ++
      '\n' :: ("END:VCARD" : String).data, ?_⟩
  rw [vcard_data]
  cases htu : truthy u <;> simp [hA, h2, h3, data_append_eq, List.append_assoc]

/-- C8: the Record Formatter is deterministic — two calls with equal
arguments return equal strings.  Its embedding is a pure function of its
arguments (no event trace in its type), which is how the absence of side
effects on any state is expressed in this development. -/
theorem vcard_deterministic (n1 p1 e1 : String) (u1 : Option String)
    (n2 p2 e2 : String) (u2 : Option String)
    (hn : n1 = n2) (hp : p1 = p2) (he : e1 = e2) (hu : u1 = u2) :
    generate_contact_vcard n1 p1 e1 u1 = generate_contact_vcard n2 p2 e2 u2 := by
  rw [hn, hp, he, hu]

/-- Witness for C8 at a concrete pair of equal argument tuples. -/
theorem vcard_deterministic_witness :
    generate_contact_vcard "John Doe" "555-1234" "john@example.com" (some "https://example.com") =
      generate_contact_vcard "John Doe" "555-1234" "john@example.com"
        (some "https://example.com") :=
  vcard_deterministic "John Doe" "555-1234" "john@example.com" (some "https://example.com")
    "John Doe" "555-1234" "john@example.com" (some "https://example.com") rfl rfl rfl rfl

theorem isPrefixChars_append_self (a t : List Char) : isPrefixChars a (a ++ t) = true := by
  induction a with
  | nil => rfl
  | cons c a ih => simp [isPrefixChars, ih]

theorem splitLines_head_append (a w : List Char) (h : ('\n') ∉ a) :
    ∃ t, (splitLines (a ++ w)).head? = some (a ++ t) := by
  induction a with
  | nil =>
    cases hw : splitLines w with
    | nil => exact absurd hw (splitLines_ne_nil w)
    | cons l ls => exact ⟨l, by simp [hw]⟩
  | cons c a ih =>
    simp only [List.mem_cons, not_or] at h
    obtain ⟨t, ht⟩ := ih h.2
    cases hs : splitLines (a ++ w) with
    | nil => exact absurd hs (splitLines_ne_nil _)
    | cons l ls =>
      rw [hs] at ht
      simp only [List.head?_cons, Option.some_inj] at ht
      refine ⟨t, ?_⟩
      show (splitLines (c :: (a ++ w))).head? = some ((c :: a) ++ t)
      simp [splitLines, hs, if_neg (Ne.symm h.1), ht]

/-- C4 counterexample: the claim quantifies over every input, but when no
url is supplied and the email field contains an embedded newline followed by
`URL:`, the output does contain a line starting with `URL:` — the only-if
direction fails. -/
theorem url_line_iff_counterexample :
    truthy none = false ∧
    HasLineStarting "URL:" (generate_contact_vcard "Ann" "555" "e\nURL:x" none) := by
  constructor
  · rfl
  · show ∃ l ∈ splitLines (generate_contact_vcard "Ann" "555" "e\nURL:x" none).data,
      isPrefixChars ("URL:" : String).data l = true
    decide

/-- C4 amended: a line starting with `URL:` is present whenever a non-empty
url is supplied (unconditionally); conversely, provided name, phone and
email contain no embedded newline — the well-formedness proviso the spec
itself notes as an accepted limitation — an absent or empty url produces no
line starting with `URL:`. -/
theorem url_line_iff_amended (n p e : String) (u : Option String) :
    (truthy u = true → HasLineStarting "URL:" (generate_contact_vcard n p e u)) ∧
    (('\n') ∉ n.data → ('\n') ∉ p.data → ('\n') ∉ e.data → truthy u = false →
      ¬ HasLineStarting "URL:" (generate_contact_vcard n p e u)) := by
  constructor
  · intro htu
    have hdec : (generate_contact_vcard n p e u).data =
        (("BEGIN:VCARD" : String).data ++ '\n' :: ("VERSION:3.0" : String).data ++
         '\n' :: ("FN:" : String).data ++ n.data ++ '\n' :: ("TEL:" : String).data ++ p.data ++
         '\n' :: ("EMAIL:" : String).data ++ e.data) ++
        '\n' :: (("URL:" : String).data ++
          ((u.getD "").data ++ '\n' :: ("END:VCARD" : String).data)) := by
      rw [vcard_data]
      simp [htu, List.append_assoc]
    show ∃ l ∈ splitLines (generate_contact_vcard n p e u).data,
      isPrefixChars ("URL:" : String).data l = true
    rw [hdec, splitLines_append]
    obtain ⟨t, ht⟩ := splitLines_head_append ("URL:" : String).data
      ((u.getD "").data ++ '\n' :: ("END:VCARD" : String).data) (by decide)
    cases hs : splitLines (("URL:" : String).data ++
        ((u.getD "").data ++ '\n' :: ("END:VCARD" : String).data)) with
    | nil => exact absurd hs (splitLines_ne_nil _)
    | cons l ls =>
      rw [hs] at ht
      simp only [List.head?_cons, Option.some_inj] at ht
      exact ⟨l, List.mem_append_right _ (List.mem_cons_self l ls), by
        rw [ht]
        exact isPrefixChars_append_self _ _⟩
  · intro hn hp he htu hcontra
    have hu0 : u.getD "" = "" := by
      cases u with
      | none => rfl
      | some s =>
        simp [truthy] at htu
        simpa using htu
    have hu : ('\n') ∉ (u.getD "").data := by
      rw [hu0]
      decide
    obtain ⟨l, hl, hpref⟩ := hcontra
    rw [vcard_splitLines n p e u hn hp he hu] at hl
    rw [htu] at hl
    simp at hl
    rcases hl with rfl | rfl | rfl | rfl | rfl | rfl
    · exact absurd hpref (by decide)
    · exact absurd hpref (by decide)
    · simp [isPrefixChars] at hpref
    · simp [isPrefixChars] at hpref
    · simp [isPrefixChars] at hpref
    · exact absurd hpref (by decide)

/-- Witness for C4 amended: url supplied (a URL: line exists) and url
omitted with clean fields (no URL: line). -/
theorem url_line_iff_amended_witness :
    HasLineStarting "URL:" (generate_contact_vcard "Ann" "555" "a@b"
      (some "https://example.com")) ∧
    ¬ HasLineStarting "URL:" (generate_contact_vcard "Ann" "555" "a@b" none) :=
  ⟨(url_line_iff_amended "Ann" "555" "a@b" (some "https://example.com")).1 rfl,
   (url_line_iff_amended "Ann" "555" "a@b" none).2 (by decide) (by decide) (by decide) rfl⟩

/-- C2 counterexample: an interactive contact invocation whose email answer
is empty — an incomplete required field by main's own completeness test —
still encodes and writes a file: the completeness check exists only on the
command-line path, so the claim fails for the interactive flow. -/
theorem missing_email_counterexample :
    truthy (some "") = false ∧
    writesFile (py_main (fun (s : String) => some s) "20260101_120000"
      {} ["2", "John Doe", "555-1234", "", ""]) = true := by
  exact ⟨rfl, by decide⟩

/-- C2 amended: in the command-line flow (a `--type` flag supplied), if the
required fields for the selected type are not all complete (non-None and
non-empty), main terminates with exactly a descriptive error message —
performing no encoding and writing no file.  The interactive flow performs
no such completeness check. -/
theorem cli_missing_fields_no_encoding {Img : Type} (enc : String → Option Img) (now : String)
    (args : Args) (stdin : List String) :
    (args.type = some "contact" →
      (truthy args.name && truthy args.phone && truthy args.email) = false →
      py_main enc now args stdin =
        some [Event.printed
          "Error: --name, --phone, and --email are required for contact QR codes"]) ∧
    (args.type = some "website" → truthy args.url = false →
      py_main enc now args stdin =
        some [Event.printed "Error: --url is required for website QR codes"]) := by
  constructor
  · intro ht hf
    have htt : truthy (some "contact") = true := rfl
    simp [py_main, ht, htt, hf]
  · intro ht hf
    have htt : truthy (some "website") = true := rfl
    simp [py_main, ht, htt, hf]

/-- Witness for C2 amended: contact flow invoked with `--email` missing. -/
theorem cli_missing_fields_no_encoding_witness :
    py_main (fun (s : String) => some s) "20260101_120000"
      { type := some "contact", name := some "John Doe", phone := some "555-1234" } [] =
      some [Event.printed
        "Error: --name, --phone, and --email are required for contact QR codes"] :=
  (cli_missing_fields_no_encoding (fun (s : String) => some s) "20260101_120000"
    { type := some "contact", name := some "John Doe", phone := some "555-1234" } []).1 rfl rfl

/-- C3 counterexample: `generate_qr_code` does not have a non-empty,
caller-resolved output path as a precondition — invoked with `None` it
resolves the timestamp default itself and writes there, and `main`'s
website flow passes its unresolved `--output` value (here `None`) straight
through to it. -/
theorem qr_path_counterexample :
    generate_qr_code (fun (s : String) => some s) "20260101_120000" "hello" none =
      some [Event.savedFile "qrcode_20260101_120000.png" "hello",
        Event.printed "QR code saved to qrcode_20260101_120000.png"] ∧
    py_main (fun (s : String) => some s) "20260101_120000"
      { type := some "website", url := some "https://example.com" } [] =
      some [Event.savedFile "qrcode_20260101_120000.png" "https://example.com",
        Event.printed "QR code saved to qrcode_20260101_120000.png"] := by
  exact ⟨by decide, by decide⟩

/-- C3 amended: `generate_qr_code` takes an optional output path; when the
encoder accepts the payload, a call with a supplied path writes the encoded
image to exactly that path, and a call with `None` writes it to the
self-resolved timestamp default `qrcode_<now>.png`. -/
theorem qr_writes_to_given_path {Img : Type} (enc : String → Option Img)
    (now data path : String) (img : Img) (h : enc data = some img) :
    generate_qr_code enc now data (some path) =
      some [Event.savedFile path img, Event.printed ("QR code saved to " ++ path)] ∧
    generate_qr_code enc now data none =
      some [Event.savedFile ("qrcode_" ++ now ++ ".png") img,
        Event.printed ("QR code saved to " ++ ("qrcode_" ++ now ++ ".png"))] := by
  constructor
  · simp [generate_qr_code, h]
  · simp [generate_qr_code, h]

/-- Witness for C3 amended at a concrete payload and path. -/
theorem qr_writes_to_given_path_witness :
    generate_qr_code (fun (s : String) => some s) "20260101_120000" "hello"
        (some "out.png") =
      some [Event.savedFile "out.png" "hello", Event.printed ("QR code saved to " ++ "out.png")] :=
  (qr_writes_to_given_path (fun (s : String) => some s) "20260101_120000" "hello"
    "out.png" "hello" rfl).1

theorem filterMap_evPath_printed {Img : Type} (xs : List String) (ys : List (Event Img)) :
    (xs.map Event.printed ++ ys).filterMap evPath = ys.filterMap evPath := by
  induction xs with
  | nil => rfl
  | cons x xs ih => simp [evPath, ih]

/-- C6: when no `--output` is given (and the encoder accepts the payload),
the resolved output path is exactly `contact_qrcode.png` for the contact
flow and the timestamp-based `qrcode_<now>.png` for the website flow, in
both the command-line and the interactive modes — `now` standing for the
`YYYYMMDD_HHMMSS`-formatted current time. -/
theorem default_output_paths {Img : Type} (enc : String → Option Img) (now : String)
    (henc : ∀ s, ∃ i, enc s = some i) :
    (∀ args stdin, args.type = some "contact" →
      (truthy args.name && truthy args.phone && truthy args.email) = true →
      args.output = none →
      savedPaths (py_main enc now args stdin) = ["contact_qrcode.png"]) ∧
    (∀ args stdin, args.type = some "website" → truthy args.url = true →
      args.output = none →
      savedPaths (py_main enc now args stdin) = ["qrcode_" ++ now ++ ".png"]) ∧
    (∀ args nm ph em u rest, truthy args.type = false →
      savedPaths (py_main enc now args ("2" :: nm :: ph :: em :: u :: rest)) =
        ["contact_qrcode.png"]) ∧
    (∀ args url rest, truthy args.type = false →
      savedPaths (py_main enc now args ("1" :: url :: rest)) = ["qrcode_" ++ now ++ ".png"]) := by
  have h2 : pyStrip "2" = "2" := by decide
  have h1 : pyStrip "1" = "1" := by decide
  refine ⟨?_, ?_, ?_, ?_⟩
  · intro args stdin ht hfields hout
    have htt : truthy (some "contact") = true := rfl
    have hfn : truthy none = false := rfl
    obtain ⟨i, hi⟩ := henc (generate_contact_vcard (args.name.getD "") (args.phone.getD "")
      (args.email.getD "") args.website)
    simp only [Bool.and_eq_true] at hfields
    simp [py_main, ht, htt, hfields.1.1, hfields.1.2, hfields.2, hout, hfn, generate_qr_code,
      hi, savedPaths, evPath]
  · intro args stdin ht hurl hout
    have htt : truthy (some "website") = true := rfl
    obtain ⟨i, hi⟩ := henc (args.url.getD "")
    simp [py_main, ht, htt, hurl, hout, generate_qr_code, hi, savedPaths, evPath]
  · intro args nm ph em u rest htype
    obtain ⟨i, hi⟩ := henc (generate_contact_vcard (pyStrip nm) (pyStrip ph) (pyStrip em)
      (if pyStrip u = "" then none else some (pyStrip u)))
    simp [py_main, htype, get_user_input_interactive, h2, generate_qr_code, hi, savedPaths,
      evPath, filterMap_evPath_printed]
  · intro args url rest htype
    obtain ⟨i, hi⟩ := henc (pyStrip url)
    simp [py_main, htype, get_user_input_interactive, h1, generate_qr_code, hi, savedPaths,
      evPath, filterMap_evPath_printed]

/-- Witness for C6: a command-line contact invocation with no `--output`. -/
theorem default_output_paths_witness :
    savedPaths (py_main (fun (s : String) => some s) "20260101_120000"
      { type := some "contact", name := some "John Doe", phone := some "555-1234",
        email := some "john@example.com" } []) = ["contact_qrcode.png"] :=
  (default_output_paths (fun (s : String) => some s) "20260101_120000"
    (fun s => ⟨s, rfl⟩)).1
    { type := some "contact", name := some "John Doe", phone := some "555-1234",
      email := some "john@example.com" } [] rfl rfl rfl

/-- C7: on a menu input outside 1, 2, 3 the interactive resolver re-prompts
instead of failing: any finite prefix of invalid menu answers leaves the
final outcome that of the remaining input stream, and each invalid answer
costs one further recursive round (one more invalid-choice notice), so the
recursion depth is unbounded in the number of consecutive invalid inputs —
an unending invalid stream would never terminate. -/
theorem invalid_menu_reprompts (bads rest : List String)
    (h : ∀ b ∈ bads, pyStrip b ≠ "1" ∧ pyStrip b ≠ "2" ∧ pyStrip b ≠ "3") :
    (get_user_input_interactive (bads ++ rest)).2 = (get_user_input_interactive rest).2 ∧
    (get_user_input_interactive (bads ++ rest)).1.count "Invalid choice. Please try again." =
      bads.length +
        (get_user_input_interactive rest).1.count "Invalid choice. Please try again." := by
  induction bads with
  | nil => simp
  | cons b bads ih =>
    obtain ⟨hb1, hb2, hb3⟩ := h b (List.mem_cons_self b bads)
    have ihh := ih fun x hx => h x (List.mem_cons_of_mem b hx)
    have hmenu : menuPrints.count "Invalid choice. Please try again." = 0 := by decide
    constructor
    · show (get_user_input_interactive (b :: (bads ++ rest))).2 =
        (get_user_input_interactive rest).2
      simp [get_user_input_interactive, hb1, hb2, hb3, ihh.1]
    · show (get_user_input_interactive (b :: (bads ++ rest))).1.count
          "Invalid choice. Please try again." = _
      simp [get_user_input_interactive, hb1, hb2, hb3, List.count_append, hmenu, ihh.2,
        List.count_cons]
      ring

/-- Witness for C7: two invalid menu answers followed by the exit choice. -/
theorem invalid_menu_reprompts_witness :
    (get_user_input_interactive (["x", "9"] ++ ["3"])).2 =
      (get_user_input_interactive ["3"]).2 ∧
    (get_user_input_interactive (["x", "9"] ++ ["3"])).1.count
        "Invalid choice. Please try again." =
      (["x", "9"] : List String).length +
        (get_user_input_interactive ["3"]).1.count "Invalid choice. Please try again." :=
  invalid_menu_reprompts ["x", "9"] ["3"] (by decide)

/-- C9: round-trip through the external encoder.  `generate_qr_code` hands
the payload to the encoder unmodified and saves exactly the encoder's
image, so for every standards-compliant encoder/decoder pair — a decoder
that inverts the encoder on each payload the encoder accepts — decoding any
image it wrote yields back exactly the original payload. -/
theorem qr_roundtrip {Img : Type} (enc : String → Option Img) (dec : Img → Option String)
    (hcompliant : ∀ s i, enc s = some i → dec i = some s)
    (now data : String) (output_path : Option String) (evs : List (Event Img))
    (hrun : generate_qr_code enc now data output_path = some evs)
    (path : String) (img : Img) (hmem : Event.savedFile path img ∈ evs) :
    dec img = some data := by
  unfold generate_qr_code at hrun
  cases he : enc data with
  | none =>
    rw [he] at hrun
    exact absurd hrun (by simp)
  | some i =>
    rw [he] at hrun
    simp only [Option.some_inj] at hrun
    rw [← hrun] at hmem
    simp [Event.savedFile.injEq] at hmem
    rw [hmem.2]
    exact hcompliant data i he

/-- Witness for C9 with the identity encoder/decoder pair on a concrete
payload written by `generate_qr_code`. -/
theorem qr_roundtrip_witness :
    (fun (i : String) => some i) "https://example.com" = some "https://example.com" :=
  qr_roundtrip (fun s => some s) (fun i => some i)
    (fun s i h => by cases h; rfl) "20260101_120000" "https://example.com" (some "out.png")
    [Event.savedFile "out.png" "https://example.com",
     Event.printed "QR code saved to out.png"]
    (by decide) "out.png" "https://example.com" (by decide)

/-- C10: whenever `get_user_input_interactive` returns a dictionary, its
type key is `website` or `contact` (the exit choice never returns — it ends
the call with `exit(0)` instead), and in the contact case the url value is
either None or a non-empty string: an empty optional-url answer is
normalized to None before the dictionary is returned. -/
theorem interactive_result_invariant :
    (∀ inputs d, (get_user_input_interactive inputs).2 = InterResult.returned d →
      (d.type = "website" ∨ d.type = "contact") ∧
      (d.type = "contact" → d.url = none ∨ ∃ s, d.url = some s ∧ s ≠ "")) ∧
    (∀ choice rest, pyStrip choice = "3" →
      (get_user_input_interactive (choice :: rest)).2 = InterResult.exited) := by
  constructor
  · intro inputs
    induction inputs with
    | nil =>
      intro d hd
      exact absurd hd (by simp [get_user_input_interactive])
    | cons choice rest ih =>
      intro d hd
      by_cases h1 : pyStrip choice = "1"
      · cases rest with
        | nil => simp [get_user_input_interactive, h1] at hd
        | cons url rest2 =>
          have heq : (get_user_input_interactive (choice :: url :: rest2)).2 =
              InterResult.returned { type := "website", url := some (pyStrip url) } := by
            simp [get_user_input_interactive, h1]
          rw [heq] at hd
          injection hd with h
          rw [← h]
          exact ⟨Or.inl rfl, fun hc => by simp at hc⟩
      · by_cases h2 : pyStrip choice = "2"
        · cases rest with
          | nil => simp [get_user_input_interactive, h1, h2] at hd
          | cons nm rest1 =>
            cases rest1 with
            | nil => simp [get_user_input_interactive, h1, h2] at hd
            | cons ph rest2 =>
              cases rest2 with
              | nil => simp [get_user_input_interactive, h1, h2] at hd
              | cons em rest3 =>
                cases rest3 with
                | nil => simp [get_user_input_interactive, h1, h2] at hd
                | cons u rest4 =>
                  have heq : (get_user_input_interactive (choice :: nm :: ph :: em :: u :: rest4)).2 = InterResult.returned { type := "contact", url := if pyStrip u = "" then none else some (pyStrip u), name := some (pyStrip nm), phone := some (pyStrip ph), email := some (pyStrip em) } := by
                    simp [get_user_input_interactive, h1, h2]
                  rw [heq] at hd
                  injection hd with h
                  rw [← h]
                  refine ⟨Or.inr rfl, fun _ => ?_⟩
                  by_cases hpu : pyStrip u = ""
                  · exact Or.inl (by simp [hpu])
                  · exact Or.inr ⟨pyStrip u, by simp [hpu], hpu⟩
        · by_cases h3 : pyStrip choice = "3"
          · simp [get_user_input_interactive, h1, h2, h3] at hd
          · have heq : (get_user_input_interactive (choice :: rest)).2 =
                (get_user_input_interactive rest).2 := by
              simp [get_user_input_interactive, h1, h2, h3]
            rw [heq] at hd
            exact ih d hd
  · intro choice rest h3
    have h1 : pyStrip choice ≠ "1" := by
      rw [h3]
      decide
    have h2 : pyStrip choice ≠ "2" := by
      rw [h3]
      decide
    simp [get_user_input_interactive, h1, h2, h3]

/-- The dictionary the interactive resolver returns for the inputs of the
C10 witness run. -/
def sampleContactDict : UserDict :=
  { type := "contact", url := none, name := some "John Doe", phone := some "555-1234",
    email := some "john@example.com" }

/-- Witness for C10: a contact run whose optional url answer is empty, and
an exit run. -/
theorem interactive_result_invariant_witness :
    ((sampleContactDict.type = "website" ∨ sampleContactDict.type = "contact") ∧
     (sampleContactDict.type = "contact" → sampleContactDict.url = none ∨
       ∃ s, sampleContactDict.url = some s ∧ s ≠ "")) ∧
    (get_user_input_interactive ["3"]).2 = InterResult.exited :=
  ⟨interactive_result_invariant.1 ["2", "John Doe", "555-1234", "john@example.com", ""]
     sampleContactDict (by decide),
   interactive_result_invariant.2 "3" [] (by decide)⟩
